import Mathlib

/-!
Verification of `raydium-swap` (`src/raydium/swap.py`, class `RaydiumSwap`)
against its natural-language specification.

The Python class is embedded shallowly: JSON / Python values become the
inductive `PyV`, Python exceptions become `Except PyErr`, the `requests`
library becomes an oracle `Env.net : Request → TransportResult`, and each
method becomes a total Lean function returning the Python-level result value
together with the list of HTTP requests it issued and the log events it
emitted (every public method wraps its body in `try/except`, so the embedded
functions are total: an uncaught Python exception inside the body turns into
the method returning `None` after logging an error, exactly as the
`except Exception` clauses do).

Numbers: Python ints are `ℤ`, Python floats are modelled as `ℚ` (the quote
amounts and price-impact fractions involved are small decimals, and no claim
depends on rounding of binary floating point; Python float division by zero
raises `ZeroDivisionError`, which is modelled faithfully in `pyDiv`).
-/

set_option autoImplicit false

namespace RaydiumSwapModel

/-- A Python/JSON value as handled by the module: `None`, booleans, ints,
floats (as `ℚ`), strings, lists and string-keyed dicts. -/
inductive PyV where
  | none : PyV
  | bool : Bool → PyV
  | int : ℤ → PyV
  | float : ℚ → PyV
  | str : String → PyV
  | list : List PyV → PyV
  | dict : List (String × PyV) → PyV

/-- The Python exception kinds the module can raise. -/
inductive PyErr where
  | keyError : String → PyErr
  | typeError : PyErr
  | valueError : PyErr
  | zeroDivisionError : PyErr
  | jsonDecodeError : PyErr
  | transportError : String → PyErr
deriving DecidableEq

/-- Log events emitted through `self._logger`. -/
inductive LogEvent where
  | warning : LogEvent
  | error : LogEvent
deriving DecidableEq

/-- Python truthiness (`if not x`): `None`, `False`, `0`, `0.0`, `""`, `[]`
and `{}` are falsy, everything else truthy. -/
def truthy : PyV → Bool
  | PyV.none => false
  | PyV.bool b => b
  | PyV.int n => decide (n ≠ 0)
  | PyV.float q => decide (q ≠ 0)
  | PyV.str s => decide (s ≠ "")
  | PyV.list l => !l.isEmpty
  | PyV.dict l => !l.isEmpty

/-- Python subscription `v[k]` with a string key: a dict yields the value or
raises `KeyError`; every other value raises `TypeError`. -/
def getItem : PyV → String → Except PyErr PyV
  | PyV.dict kvs, k =>
      match kvs.lookup k with
      | some v => Except.ok v
      | Option.none => Except.error (PyErr.keyError k)
  | _, _ => Except.error PyErr.typeError

/-- Splitting of a character list at the `.` separators. -/
def splitDotAux : List Char → List Char → List (List Char)
  | [], acc => [acc.reverse]
  | c :: cs, acc =>
      if c = '.' then acc.reverse :: splitDotAux cs []
      else splitDotAux cs (c :: acc)

/-- Value of a non-empty all-digit character group. -/
def digitsValAux : List Char → ℕ → Option ℕ
  | [], acc => some acc
  | c :: cs, acc =>
      if c.isDigit then digitsValAux cs (acc * 10 + (c.toNat - 48))
      else Option.none

def digitsVal : List Char → Option ℕ
  | [] => Option.none
  | cs => digitsValAux cs 0

/-- Decimal-literal parsing used by `float(str)` on the integer / decimal
amount strings these endpoints produce (`"1000000000"`, `"0.01"`, ...). -/
def parseDecimal (s : String) : Option ℚ :=
  match splitDotAux s.toList [] with
  | [a] => (digitsVal a).map (fun n => (n : ℚ))
  | [a, b] =>
      match digitsVal a, digitsVal b with
      | some x, some y => some ((x : ℚ) + (y : ℚ) / ((10 : ℚ) ^ b.length))
      | _, _ => Option.none
  | _ => Option.none

/-- Python `float(x)`: numbers and booleans convert, numeric strings parse
(`ValueError` otherwise), and `None` / lists / dicts raise `TypeError`. -/
def pyFloat : PyV → Except PyErr ℚ
  | PyV.int n => Except.ok (n : ℚ)
  | PyV.float q => Except.ok q
  | PyV.bool b => Except.ok (if b then 1 else 0)
  | PyV.str s =>
      match parseDecimal s with
      | some q => Except.ok q
      | Option.none => Except.error PyErr.valueError
  | _ => Except.error PyErr.typeError

/-- Python `x > q` against the float `price_impact_max`: numeric values
compare, anything else raises `TypeError`. -/
def pyGtQ : PyV → ℚ → Except PyErr Bool
  | PyV.int n, q => Except.ok (decide ((n : ℚ) > q))
  | PyV.float p, q => Except.ok (decide (p > q))
  | PyV.bool b, q => Except.ok (decide (((if b then 1 else 0) : ℚ) > q))
  | _, _ => Except.error PyErr.typeError

/-- Python float division: raises `ZeroDivisionError` on a zero denominator. -/
def pyDiv (a b : ℚ) : Except PyErr ℚ :=
  if b = 0 then Except.error PyErr.zeroDivisionError else Except.ok (a / b)

/-- Coercion of a joined element to a string as `str.join` requires: a
non-string element raises `TypeError`. -/
def asStr : PyV → Except PyErr String
  | PyV.str s => Except.ok s
  | _ => Except.error PyErr.typeError

/-- Left-to-right coercion of the joined elements, stopping at the first
non-string. -/
def strList : List PyV → Except PyErr (List String)
  | [] => Except.ok []
  | v :: vs => do
      let s ← asStr v
      let ss ← strList vs
      Except.ok (s :: ss)

/-- Python `", ".join(l)`: every element must be a string (`TypeError`
otherwise); the result is the elements interleaved with the separator. -/
def pyJoin (sep : String) (l : List PyV) : Except PyErr String := do
  let ss ← strList l
  Except.ok (String.intercalate sep ss)

/-- Modelled from the spec: `constants.py` is not under `src/`; the spec says
parameter shapes, not URLs, matter for compatibility, so the three endpoint
constants are opaque, pairwise distinct strings. -/
def QUOTE_API_URL : String := "QUOTE_API_URL"

/-- Modelled from the spec: the transaction-build endpoint URL (see
`QUOTE_API_URL`). -/
def TRX_API_URL : String := "TRX_API_URL"

/-- Modelled from the spec: the base URL of the data API (see
`QUOTE_API_URL`). -/
def DATA_BASE_URL : String := "DATA_BASE_URL"

/-- An outbound HTTP request as built by the module: method, URL, query
parameters (in order), optional JSON body, and the `timeout=` argument
passed to `requests` (`Option.none` when the call passes no timeout). -/
structure Request where
  method : String
  url : String
  params : List (String × String)
  body : Option PyV
  timeout : Option ℕ

/-- An HTTP response as seen through `requests.Response`: the status code and
the outcome of `resp.json()` (`Except.error` for a malformed body). -/
structure Response where
  status_code : ℕ
  body : Except PyErr PyV

/-- The outcome of one `requests.get` / `requests.post` call: a response, or
a raised transport exception (timeout, connection error, ...). -/
inductive TransportResult where
  | ok : Response → TransportResult
  | exn : String → TransportResult

/-- The external world: a deterministic network oracle, the success of
`Pubkey.from_string` on a given address string (the address-parsing library
is an out-of-scope collaborator), and the pure associated-token-address
derivation `get_associated_token_address wallet mint`. The canonical string
form of a parsed pubkey is modelled as the input string itself; no claim
inspects canonicalisation. -/
structure Env where
  net : Request → TransportResult
  parseOk : String → Bool
  ata : String → String → String

/-- The constructor configuration of `RaydiumSwap`. -/
structure Config where
  price_impact_max : ℚ
  slippage_bps : ℤ
  timeout : ℕ

/-- The constructor defaults: `price_impact_max=0.1`, `slippage_bps=10`,
`timeout=10`. -/
def Config.default : Config :=
  { price_impact_max := (1 : ℚ) / 10, slippage_bps := 10, timeout := 10 }

/-- The result of one embedded method call: the Python return value, the
HTTP requests issued (in order), and the log events emitted (in order). -/
structure Outcome where
  val : PyV
  reqs : List Request
  logs : List LogEvent

/-- `RaydiumSwap._response_json`: rejects a non-200 status (logging an
error), decodes the body, rejects a falsy `success` field (logging an error
that reads `resp_js["id"]`, so a `success=false` envelope without an `id`
key raises `KeyError` out of the helper), and otherwise returns the full
envelope. Exceptions escape the helper to the calling method's handler. -/
def response_json (resp : Response) : Except PyErr PyV × List LogEvent :=
  if resp.status_code ≠ 200 then
    (Except.ok (PyV.bool false), [LogEvent.error])
  else
    match resp.body with
    | Except.error e => (Except.error e, [])
    | Except.ok js =>
      match getItem js "success" with
      | Except.error e => (Except.error e, [])
      | Except.ok s =>
        if truthy s then (Except.ok js, [])
        else
          match getItem js "id" with
          | Except.error e => (Except.error e, [])
          | Except.ok _ => (Except.ok (PyV.bool false), [LogEvent.error])

/-- The quote request issued by `_compute_routes`: GET on the quote endpoint
with `inputMint`, `outputMint`, `amount`, `slippageBps`, `txVersion="V0"`
(numeric parameters stringified as `requests` does) and the configured
timeout. -/
def quoteRequest (cfg : Config) (input_mint output_mint : String)
    (amount_in : ℤ) : Request :=
  { method := "GET"
    url := QUOTE_API_URL
    params := [("inputMint", input_mint), ("outputMint", output_mint),
               ("amount", toString amount_in),
               ("slippageBps", toString cfg.slippage_bps),
               ("txVersion", "V0")]
    body := Option.none
    timeout := some cfg.timeout }

/-- `RaydiumSwap._compute_routes`: GET the quote, validate it through
`_response_json` (`if not resp_js: return False`), read
`data.priceImpactPct`, log a warning (without blocking) when it exceeds
`price_impact_max`, and return the full envelope. The surrounding
`try/except` turns any raised exception into logging an error and
returning `None`. -/
def compute_routes (cfg : Config) (env : Env) (input_mint output_mint : String)
    (amount_in : ℤ) : Outcome :=
  let req := quoteRequest cfg input_mint output_mint amount_in
  match env.net req with
  | TransportResult.exn _ => ⟨PyV.none, [req], [LogEvent.error]⟩
  | TransportResult.ok resp =>
    match response_json resp with
    | (Except.error _, lg) => ⟨PyV.none, [req], lg ++ [LogEvent.error]⟩
    | (Except.ok js, lg) =>
      if truthy js then
        match getItem js "data" with
        | Except.error _ => ⟨PyV.none, [req], lg ++ [LogEvent.error]⟩
        | Except.ok d =>
          match getItem d "priceImpactPct" with
          | Except.error _ => ⟨PyV.none, [req], lg ++ [LogEvent.error]⟩
          | Except.ok pi =>
            match pyGtQ pi cfg.price_impact_max with
            | Except.error _ => ⟨PyV.none, [req], lg ++ [LogEvent.error]⟩
            | Except.ok true => ⟨js, [req], lg ++ [LogEvent.warning]⟩
            | Except.ok false => ⟨js, [req], lg⟩
      else ⟨PyV.bool false, [req], lg⟩

/-- `RaydiumSwap.get_price`: fetch a quote through `_compute_routes`, return
`False` when it is falsy or its `data` is `None`, otherwise return
`float(data["inputAmount"]) / float(data["outputAmount"])`; the `try/except`
turns any raised exception (missing key, non-numeric amount, division by
zero) into logging an error and returning `None`. -/
def get_price (cfg : Config) (env : Env) (input_mint output_mint : String)
    (amount_in : ℤ) : Outcome :=
  let c := compute_routes cfg env input_mint output_mint amount_in
  if truthy c.val then
    match getItem c.val "data" with
    | Except.error _ => ⟨PyV.none, c.reqs, c.logs ++ [LogEvent.error]⟩
    | Except.ok d =>
      match d with
      | PyV.none => ⟨PyV.bool false, c.reqs, c.logs⟩
      | _ =>
        match (do
          let iv ← getItem d "inputAmount"
          let qi ← pyFloat iv
          let ov ← getItem d "outputAmount"
          let qo ← pyFloat ov
          pyDiv qi qo : Except PyErr ℚ) with
        | Except.ok q => ⟨PyV.float q, c.reqs, c.logs⟩
        | Except.error _ => ⟨PyV.none, c.reqs, c.logs ++ [LogEvent.error]⟩
  else ⟨PyV.bool false, c.reqs, c.logs⟩

/-- `RaydiumSwap.get_routes`: fetch a quote through `_compute_routes`, return
`False` when it is falsy or its `data` is `None`, otherwise return
`data["routePlan"]`; a raised exception becomes an error log and `None`. -/
def get_routes (cfg : Config) (env : Env) (input_mint output_mint : String)
    (amount_in : ℤ) : Outcome :=
  let c := compute_routes cfg env input_mint output_mint amount_in
  if truthy c.val then
    match getItem c.val "data" with
    | Except.error _ => ⟨PyV.none, c.reqs, c.logs ++ [LogEvent.error]⟩
    | Except.ok d =>
      match d with
      | PyV.none => ⟨PyV.bool false, c.reqs, c.logs⟩
      | _ =>
        match getItem d "routePlan" with
        | Except.ok rp => ⟨rp, c.reqs, c.logs⟩
        | Except.error _ => ⟨PyV.none, c.reqs, c.logs ++ [LogEvent.error]⟩
  else ⟨PyV.bool false, c.reqs, c.logs⟩

/-- The RPC-list request issued by `get_rpcs`: a bare
`requests.get(url)` with no query parameters and no `timeout=` argument. -/
def rpcsRequest : Request :=
  { method := "GET", url := DATA_BASE_URL ++ "/main/rpcs", params := [],
    body := Option.none, timeout := Option.none }

/-- `RaydiumSwap.get_rpcs`: GET the RPC-list endpoint (no timeout passed),
validate through `_response_json`, return `data["rpcs"]`, `False` on a
rejected response, or log an error and return `None` on an exception. -/
def get_rpcs (env : Env) : Outcome :=
  let req := rpcsRequest
  match env.net req with
  | TransportResult.exn _ => ⟨PyV.none, [req], [LogEvent.error]⟩
  | TransportResult.ok resp =>
    match response_json resp with
    | (Except.error _, lg) => ⟨PyV.none, [req], lg ++ [LogEvent.error]⟩
    | (Except.ok js, lg) =>
      if truthy js then
        match (do
          let d ← getItem js "data"
          getItem d "rpcs" : Except PyErr PyV) with
        | Except.ok v => ⟨v, [req], lg⟩
        | Except.error _ => ⟨PyV.none, [req], lg ++ [LogEvent.error]⟩
      else ⟨PyV.bool false, [req], lg⟩

/-- The loop `for route in routes: ids.append(route["poolId"])`, iterating a
Python list: raises the first hop's subscription error, otherwise collects
the `poolId` values in route-plan order, duplicates preserved. -/
def collectPoolIds : List PyV → Except PyErr (List PyV)
  | [] => Except.ok []
  | r :: rs => do
      let p ← getItem r "poolId"
      let ps ← collectPoolIds rs
      Except.ok (p :: ps)

/-- The pools-info request issued by `get_pools_info`: GET on
`{DATA_BASE_URL}/pools/info/ids` with the single query parameter `ids` and
no `timeout=` argument. -/
def poolsInfoRequest (ids_str : String) : Request :=
  { method := "GET", url := DATA_BASE_URL ++ "/pools/info/ids",
    params := [("ids", ids_str)], body := Option.none,
    timeout := Option.none }

/-- `RaydiumSwap.get_pools_info`: obtain the route plan via `get_routes`
(`False` when falsy), collect every hop's `poolId` in order, join them with
`", "`, GET the pools-info endpoint with that `ids` parameter (no timeout
passed), validate, and return `data`; a raised exception (non-list route
plan, missing `poolId`, non-string id at the join) becomes an error log and
`None`. -/
def get_pools_info (cfg : Config) (env : Env) (input_mint output_mint : String)
    (amount_in : ℤ) : Outcome :=
  let rt := get_routes cfg env input_mint output_mint amount_in
  if truthy rt.val then
    match rt.val with
    | PyV.list rs =>
      match (do
        let ids ← collectPoolIds rs
        pyJoin ", " ids : Except PyErr String) with
      | Except.error _ => ⟨PyV.none, rt.reqs, rt.logs ++ [LogEvent.error]⟩
      | Except.ok ids_str =>
        let req := poolsInfoRequest ids_str
        match env.net req with
        | TransportResult.exn _ =>
            ⟨PyV.none, rt.reqs ++ [req], rt.logs ++ [LogEvent.error]⟩
        | TransportResult.ok resp =>
          match response_json resp with
          | (Except.error _, lg) =>
              ⟨PyV.none, rt.reqs ++ [req], rt.logs ++ lg ++ [LogEvent.error]⟩
          | (Except.ok js, lg) =>
            if truthy js then
              match getItem js "data" with
              | Except.ok v => ⟨v, rt.reqs ++ [req], rt.logs ++ lg⟩
              | Except.error _ =>
                  ⟨PyV.none, rt.reqs ++ [req], rt.logs ++ lg ++ [LogEvent.error]⟩
            else ⟨PyV.bool false, rt.reqs ++ [req], rt.logs ++ lg⟩
    | _ =>
      -- `for route in routes` over a truthy non-list (dict keys, string
      -- characters, or a non-iterable) ends in a TypeError before any
      -- pools-info request is built.
      ⟨PyV.none, rt.reqs, rt.logs ++ [LogEvent.error]⟩
  else ⟨PyV.bool false, rt.reqs, rt.logs⟩

/-- The auto-fee request issued by `_unit_price_micro_lamports`: a bare
`requests.get(url)` with no timeout. -/
def autoFeeRequest : Request :=
  { method := "GET", url := DATA_BASE_URL ++ "/main/auto-fee", params := [],
    body := Option.none, timeout := Option.none }

/-- The body of `_unit_price_micro_lamports` as written (no `try/except` of
its own): GET the auto-fee endpoint; on a 200 status with a truthy `success`
field return `data["default"][select]`, otherwise return `False`; any
exception propagates to the caller. -/
def unit_price_micro_lamports (env : Env) (select : String) :
    Except PyErr PyV × List Request :=
  let req := autoFeeRequest
  match env.net req with
  | TransportResult.exn m => (Except.error (PyErr.transportError m), [req])
  | TransportResult.ok resp =>
    if resp.status_code = 200 then
      match resp.body with
      | Except.error e => (Except.error e, [req])
      | Except.ok js =>
        match getItem js "success" with
        | Except.error e => (Except.error e, [req])
        | Except.ok s =>
          if truthy s then
            match (do
              let d ← getItem js "data"
              let df ← getItem d "default"
              getItem df select : Except PyErr PyV) with
            | Except.ok v => (Except.ok v, [req])
            | Except.error e => (Except.error e, [req])
          else (Except.ok (PyV.bool false), [req])
    else (Except.ok (PyV.bool false), [req])

/-- The call site `self._unit_price_micro_lamports("h")` as executed: the
method is declared `def _unit_price_micro_lamports(select: str = "h")` with
no `self` parameter, so the bound-method call passes two positional
arguments (`self` and `"h"`) to a one-parameter function and raises
`TypeError` before the body runs — no auto-fee request is ever issued. -/
def unit_price_micro_lamports_boundcall : Except PyErr PyV × List Request :=
  (Except.error PyErr.typeError, [])

/-- The transaction-build POST that `generate_transaction` would issue: JSON
body with the wallet, the two associated token accounts, `txVersion="V0"`,
`wrapSol`/`unwrapSol` true, the resolved priority fee, and the full quote
envelope as `swapResponse`; sent with the configured timeout. -/
def trxRequest (cfg : Config) (wallet input_ata output_ata : String)
    (fee : PyV) (swapResponse : PyV) : Request :=
  { method := "POST"
    url := TRX_API_URL
    params := []
    body := some (PyV.dict
      [("wallet", PyV.str wallet), ("inputAccount", PyV.str input_ata),
       ("outputAccount", PyV.str output_ata), ("txVersion", PyV.str "V0"),
       ("wrapSol", PyV.bool true), ("unwrapSol", PyV.bool true),
       ("computeUnitPriceMicroLamports", fee),
       ("swapResponse", swapResponse)])
    timeout := some cfg.timeout }

/-- `RaydiumSwap.generate_transaction`: parse the three addresses, derive
the two associated token accounts, fetch a quote (`False` when falsy), hard
stop with `False` when `data.priceImpactPct > price_impact_max`, resolve a
priority fee via `self._unit_price_micro_lamports("h")` (which raises
`TypeError`, see `unit_price_micro_lamports_boundcall`), fall back to
`"15000"` when falsy, POST the build payload, validate, and return
`data["transaction"]`; the `try/except` turns any raised exception into
logging an error and returning `None`. -/
def generate_transaction (cfg : Config) (env : Env)
    (input_mint output_mint wallet_pub_key : String) (amount_in : ℤ) :
    Outcome :=
  if env.parseOk wallet_pub_key && env.parseOk input_mint
      && env.parseOk output_mint then
    let input_ata := env.ata wallet_pub_key input_mint
    let output_ata := env.ata wallet_pub_key output_mint
    let c := compute_routes cfg env input_mint output_mint amount_in
    if truthy c.val then
      match (do
        let d ← getItem c.val "data"
        getItem d "priceImpactPct" : Except PyErr PyV) with
      | Except.error _ => ⟨PyV.none, c.reqs, c.logs ++ [LogEvent.error]⟩
      | Except.ok pi =>
        match pyGtQ pi cfg.price_impact_max with
        | Except.error _ => ⟨PyV.none, c.reqs, c.logs ++ [LogEvent.error]⟩
        | Except.ok true => ⟨PyV.bool false, c.reqs, c.logs⟩
        | Except.ok false =>
          match unit_price_micro_lamports_boundcall with
          | (Except.error _, feeReqs) =>
              ⟨PyV.none, c.reqs ++ feeReqs, c.logs ++ [LogEvent.error]⟩
          | (Except.ok feeV, feeReqs) =>
            -- Unreachable given the bound call above always raises;
            -- modelled for completeness of the remaining source lines.
            let fee := if truthy feeV then feeV else PyV.str "15000"
            let req := trxRequest cfg wallet_pub_key input_ata output_ata
              fee c.val
            match env.net req with
            | TransportResult.exn _ =>
                ⟨PyV.none, c.reqs ++ feeReqs ++ [req],
                 c.logs ++ [LogEvent.error]⟩
            | TransportResult.ok resp =>
              match response_json resp with
              | (Except.error _, lg) =>
                  ⟨PyV.none, c.reqs ++ feeReqs ++ [req],
                   c.logs ++ lg ++ [LogEvent.error]⟩
              | (Except.ok js, lg) =>
                if truthy js then
                  match (do
                    let d ← getItem js "data"
                    getItem d "transaction" : Except PyErr PyV) with
                  | Except.ok t =>
                      ⟨t, c.reqs ++ feeReqs ++ [req], c.logs ++ lg⟩
                  | Except.error _ =>
                      ⟨PyV.none, c.reqs ++ feeReqs ++ [req],
                       c.logs ++ lg ++ [LogEvent.error]⟩
                else ⟨PyV.bool false, c.reqs ++ feeReqs ++ [req],
                      c.logs ++ lg⟩
    else ⟨PyV.bool false, c.reqs, c.logs⟩
  else ⟨PyV.none, [], [LogEvent.error]⟩

/-! Basic lemmas about the value model. -/

theorem getItem_ok_dict {v : PyV} {k : String} {x : PyV}
    (h : getItem v k = Except.ok x) :
    ∃ kvs, v = PyV.dict kvs ∧ kvs.lookup k = some x := by
  cases v with
  | dict kvs =>
      refine ⟨kvs, rfl, ?_⟩
      cases hl : kvs.lookup k with
      | none => simp [getItem, hl] at h
      | some w => simp [getItem, hl] at h; rw [h]
  | none => exact absurd h (by simp [getItem])
  | bool b => exact absurd h (by simp [getItem])
  | int n => exact absurd h (by simp [getItem])
  | float q => exact absurd h (by simp [getItem])
  | str s => exact absurd h (by simp [getItem])
  | list l => exact absurd h (by simp [getItem])

theorem truthy_of_getItem_ok {v : PyV} {k : String} {x : PyV}
    (h : getItem v k = Except.ok x) : truthy v = true := by
  obtain ⟨kvs, rfl, hl⟩ := getItem_ok_dict h
  cases kvs with
  | nil => simp [List.lookup] at hl
  | cons p ps => simp [truthy, List.isEmpty]

/-! Lemmas reducing `_response_json` and `_compute_routes` on described
responses. -/

theorem response_json_ok {r : Response} {js s : PyV}
    (hst : r.status_code = 200) (hb : r.body = Except.ok js)
    (hs : getItem js "success" = Except.ok s) (hts : truthy s = true) :
    response_json r = (Except.ok js, []) := by
  unfold response_json
  rw [hst, hb]
  simp [hs, hts]

theorem response_json_non200 {r : Response} (hst : r.status_code ≠ 200) :
    response_json r = (Except.ok (PyV.bool false), [LogEvent.error]) := by
  unfold response_json
  rw [if_pos hst]

theorem compute_routes_eq {cfg : Config} {env : Env}
    {i o : String} {a : ℤ} {resp : Response} {js s d pi : PyV} {b : Bool}
    (hnet : env.net (quoteRequest cfg i o a) = TransportResult.ok resp)
    (hst : resp.status_code = 200) (hb : resp.body = Except.ok js)
    (hs : getItem js "success" = Except.ok s) (hts : truthy s = true)
    (hd : getItem js "data" = Except.ok d)
    (hpi : getItem d "priceImpactPct" = Except.ok pi)
    (hgt : pyGtQ pi cfg.price_impact_max = Except.ok b) :
    compute_routes cfg env i o a =
      ⟨js, [quoteRequest cfg i o a],
       if b then [LogEvent.warning] else []⟩ := by
  unfold compute_routes
  simp only [hnet, response_json_ok hst hb hs hts,
    truthy_of_getItem_ok hs, if_true, hd, hpi, hgt]
  cases b <;> simp

/-! Failure conditions on the quote request and the resulting behaviour. -/

/-- A decoded response envelope whose `success` field is falsy. -/
def respSuccessFalse (r : Response) : Bool :=
  match r.body with
  | Except.ok js =>
    match getItem js "success" with
    | Except.ok v => !truthy v
    | Except.error _ => false
  | Except.error _ => false

/-- The quote request for this call either fails at the transport level, or
comes back with a non-200 status, or with an envelope whose `success` field
is falsy. -/
def quoteFails (cfg : Config) (env : Env) (i o : String) (a : ℤ) : Bool :=
  match env.net (quoteRequest cfg i o a) with
  | TransportResult.exn _ => true
  | TransportResult.ok r =>
      decide (r.status_code ≠ 200) || respSuccessFalse r

theorem compute_routes_exn {cfg : Config} {env : Env} {i o : String} {a : ℤ}
    {m : String}
    (hnet : env.net (quoteRequest cfg i o a) = TransportResult.exn m) :
    compute_routes cfg env i o a =
      ⟨PyV.none, [quoteRequest cfg i o a], [LogEvent.error]⟩ := by
  unfold compute_routes
  simp only [hnet]

theorem compute_routes_rj_error {cfg : Config} {env : Env} {i o : String}
    {a : ℤ} {r : Response} {e : PyErr} {lg : List LogEvent}
    (hnet : env.net (quoteRequest cfg i o a) = TransportResult.ok r)
    (hrj : response_json r = (Except.error e, lg)) :
    compute_routes cfg env i o a =
      ⟨PyV.none, [quoteRequest cfg i o a], lg ++ [LogEvent.error]⟩ := by
  unfold compute_routes
  simp only [hnet, hrj]

theorem compute_routes_rj_false {cfg : Config} {env : Env} {i o : String}
    {a : ℤ} {r : Response} {lg : List LogEvent}
    (hnet : env.net (quoteRequest cfg i o a) = TransportResult.ok r)
    (hrj : response_json r = (Except.ok (PyV.bool false), lg)) :
    compute_routes cfg env i o a =
      ⟨PyV.bool false, [quoteRequest cfg i o a], lg⟩ := by
  unfold compute_routes
  simp only [hnet, hrj, truthy, Bool.false_eq_true, if_false]

theorem response_json_success_false {r : Response} {js v : PyV}
    (hst : r.status_code = 200) (hb : r.body = Except.ok js)
    (hv : getItem js "success" = Except.ok v) (htv : truthy v = false) :
    response_json r = (Except.ok (PyV.bool false), [LogEvent.error]) ∨
      ∃ e, response_json r = (Except.error e, []) := by
  unfold response_json
  rw [hst, hb]
  cases hid : getItem js "id" with
  | ok idv => left; simp [hv, htv, hid]
  | error e => right; exact ⟨e, by simp [hv, htv, hid]⟩

/-- On a failed quote, `_compute_routes` returns its sentinel: `None` (from
the exception handler) or `False` (from the validation helper). -/
theorem compute_routes_sentinel_of_quoteFails {cfg : Config} {env : Env}
    {i o : String} {a : ℤ} (h : quoteFails cfg env i o a = true) :
    (compute_routes cfg env i o a).val = PyV.none ∨
      (compute_routes cfg env i o a).val = PyV.bool false := by
  unfold quoteFails at h
  cases hnet : env.net (quoteRequest cfg i o a) with
  | exn m => left; rw [compute_routes_exn hnet]
  | ok r =>
      rw [hnet] at h
      by_cases hst : r.status_code = 200
      · have hsf : respSuccessFalse r = true := by
          simpa [hst] using h
        cases hb : r.body with
        | error e => simp [respSuccessFalse, hb] at hsf
        | ok js =>
            cases hv : getItem js "success" with
            | error e => simp [respSuccessFalse, hb, hv] at hsf
            | ok v =>
                have htv : truthy v = false := by
                  simpa [respSuccessFalse, hb, hv] using hsf
                rcases response_json_success_false hst hb hv htv with
                  hrj | ⟨e, hrj⟩
                · right; rw [compute_routes_rj_false hnet hrj]
                · left; rw [compute_routes_rj_error hnet hrj]
      · right
        rw [compute_routes_rj_false hnet (response_json_non200 hst)]

theorem truthy_false_of_sentinel {v : PyV}
    (h : v = PyV.none ∨ v = PyV.bool false) : truthy v = false := by
  rcases h with h | h <;> rw [h] <;> rfl

/-! Behaviour of the public operations when the quote helper fails. -/

theorem get_price_of_compute_falsy {cfg : Config} {env : Env} {i o : String}
    {a : ℤ} (h : truthy (compute_routes cfg env i o a).val = false) :
    get_price cfg env i o a =
      ⟨PyV.bool false, (compute_routes cfg env i o a).reqs,
       (compute_routes cfg env i o a).logs⟩ := by
  unfold get_price
  simp only [h, Bool.false_eq_true, if_false]

theorem get_routes_of_compute_falsy {cfg : Config} {env : Env} {i o : String}
    {a : ℤ} (h : truthy (compute_routes cfg env i o a).val = false) :
    get_routes cfg env i o a =
      ⟨PyV.bool false, (compute_routes cfg env i o a).reqs,
       (compute_routes cfg env i o a).logs⟩ := by
  unfold get_routes
  simp only [h, Bool.false_eq_true, if_false]

theorem get_pools_info_of_routes_falsy {cfg : Config} {env : Env}
    {i o : String} {a : ℤ}
    (h : truthy (get_routes cfg env i o a).val = false) :
    get_pools_info cfg env i o a =
      ⟨PyV.bool false, (get_routes cfg env i o a).reqs,
       (get_routes cfg env i o a).logs⟩ := by
  unfold get_pools_info
  simp only [h, Bool.false_eq_true, if_false]

theorem strList_map_str (ps : List String) :
    strList (ps.map PyV.str) = Except.ok ps := by
  induction ps with
  | nil => rfl
  | cons p tl ih =>
      simp [strList, asStr, ih, Bind.bind, Except.bind]

theorem pyJoin_map_str (sep : String) (ps : List String) :
    pyJoin sep (ps.map PyV.str) = Except.ok (String.intercalate sep ps) := by
  unfold pyJoin
  simp [strList_map_str, Bind.bind, Except.bind]

/-- Reduction of `get_routes` on a validated quote whose `data` carries a
route plan. -/
theorem get_routes_eq {cfg : Config} {env : Env} {i o : String} {a : ℤ}
    {resp : Response} {js s d pi rp : PyV} {b : Bool}
    (hnet : env.net (quoteRequest cfg i o a) = TransportResult.ok resp)
    (hst : resp.status_code = 200) (hb : resp.body = Except.ok js)
    (hs : getItem js "success" = Except.ok s) (hts : truthy s = true)
    (hd : getItem js "data" = Except.ok d)
    (hpi : getItem d "priceImpactPct" = Except.ok pi)
    (hgt : pyGtQ pi cfg.price_impact_max = Except.ok b)
    (hrp : getItem d "routePlan" = Except.ok rp) :
    get_routes cfg env i o a =
      ⟨rp, [quoteRequest cfg i o a],
       if b then [LogEvent.warning] else []⟩ := by
  unfold get_routes
  simp only [compute_routes_eq hnet hst hb hs hts hd hpi hgt,
    truthy_of_getItem_ok hs, if_true, hd]
  obtain ⟨kvs, hdd, -⟩ := getItem_ok_dict hpi
  subst hdd
  simp only [hrp]

/-! Concrete fixtures used by witnesses and counterexamples. -/

/-- Quote data with a price impact of 0.15, above the default 0.1 ceiling. -/
def dataHigh : PyV :=
  PyV.dict [("priceImpactPct", PyV.float ((3 : ℚ) / 20)),
            ("inputAmount", PyV.str "1000000000"),
            ("outputAmount", PyV.str "8000000"),
            ("routePlan", PyV.list [PyV.dict [("poolId", PyV.str "P1")]])]

/-- A successful quote envelope with high price impact. -/
def jsHigh : PyV :=
  PyV.dict [("id", PyV.str "q-high"), ("success", PyV.bool true),
            ("data", dataHigh)]

def respHigh : Response := ⟨200, Except.ok jsHigh⟩

/-- World that answers every request with the high-impact quote and parses
every address. -/
def envHigh : Env :=
  ⟨fun _ => TransportResult.ok respHigh, fun _ => true,
   fun w m => w ++ "/" ++ m⟩

/-- Quote data with a price impact of 0.01, below the ceiling; the route
plan repeats pool `P1` across its three hops. -/
def dataGood : PyV :=
  PyV.dict [("priceImpactPct", PyV.float ((1 : ℚ) / 100)),
            ("inputAmount", PyV.str "1000000000"),
            ("outputAmount", PyV.str "8000000"),
            ("routePlan", PyV.list
              [PyV.dict [("poolId", PyV.str "P1")],
               PyV.dict [("poolId", PyV.str "P2")],
               PyV.dict [("poolId", PyV.str "P1")]])]

/-- A successful quote envelope with acceptable price impact. -/
def jsGood : PyV :=
  PyV.dict [("id", PyV.str "q-good"), ("success", PyV.bool true),
            ("data", dataGood)]

def respGood : Response := ⟨200, Except.ok jsGood⟩

/-- World that answers every request with the good quote. -/
def envGood : Env :=
  ⟨fun _ => TransportResult.ok respGood, fun _ => true,
   fun w m => w ++ "/" ++ m⟩

/-- Quote data whose `outputAmount` is zero. -/
def dataZero : PyV :=
  PyV.dict [("priceImpactPct", PyV.float ((1 : ℚ) / 100)),
            ("inputAmount", PyV.str "1000000000"),
            ("outputAmount", PyV.str "0"),
            ("routePlan", PyV.list [PyV.dict [("poolId", PyV.str "P1")]])]

def jsZero : PyV :=
  PyV.dict [("id", PyV.str "q-zero"), ("success", PyV.bool true),
            ("data", dataZero)]

def respZero : Response := ⟨200, Except.ok jsZero⟩

def envZero : Env :=
  ⟨fun _ => TransportResult.ok respZero, fun _ => true,
   fun w m => w ++ "/" ++ m⟩

/-- World in which every request raises a transport timeout. -/
def envDown : Env :=
  ⟨fun _ => TransportResult.exn "timeout", fun _ => true,
   fun w m => w ++ "/" ++ m⟩

/-- A 200 response whose envelope has `success=false` and no `id` field. -/
def respNoId : Response :=
  ⟨200, Except.ok (PyV.dict [("success", PyV.bool false)])⟩

/-! Claim theorems. -/

/-- C1: for every quote whose `data.priceImpactPct` is strictly greater than
the configured `priceImpactMax`, `generate_transaction` returns the failure
indicator `False` and issues no POST request (in particular none to the
transaction-build endpoint). -/
theorem generate_transaction_blocks_high_impact
    (cfg : Config) (env : Env) (i o w : String) (a : ℤ)
    (resp : Response) (js s d pi : PyV)
    (hw : env.parseOk w = true) (hi : env.parseOk i = true)
    (ho : env.parseOk o = true)
    (hnet : env.net (quoteRequest cfg i o a) = TransportResult.ok resp)
    (hst : resp.status_code = 200) (hb : resp.body = Except.ok js)
    (hs : getItem js "success" = Except.ok s) (hts : truthy s = true)
    (hd : getItem js "data" = Except.ok d)
    (hpi : getItem d "priceImpactPct" = Except.ok pi)
    (hgt : pyGtQ pi cfg.price_impact_max = Except.ok true) :
    (generate_transaction cfg env i o w a).val = PyV.bool false ∧
      ∀ r ∈ (generate_transaction cfg env i o w a).reqs,
        r.url ≠ TRX_API_URL ∧ r.method ≠ "POST" := by
  unfold generate_transaction
  simp only [hw, hi, ho, Bool.and_self, Bool.and_true, Bool.true_and,
    if_true, compute_routes_eq hnet hst hb hs hts hd hpi hgt,
    truthy_of_getItem_ok hs, hd, hpi, hgt, Bind.bind, Except.bind]
  refine ⟨by trivial, ?_⟩
  intro r hr
  simp only [List.mem_singleton] at hr
  subst hr
  exact ⟨by simp [quoteRequest, QUOTE_API_URL, TRX_API_URL],
         by simp [quoteRequest]⟩

/-- C1 witness: with the 0.15-impact quote and default 0.1 ceiling,
`generate_transaction` fails and never contacts the build endpoint. -/
theorem generate_transaction_blocks_high_impact_witness :
    (generate_transaction Config.default envHigh "MintA" "MintB" "W" 1000).val
        = PyV.bool false ∧
      ∀ r ∈ (generate_transaction Config.default envHigh
          "MintA" "MintB" "W" 1000).reqs,
        r.url ≠ TRX_API_URL ∧ r.method ≠ "POST" :=
  generate_transaction_blocks_high_impact Config.default envHigh
    "MintA" "MintB" "W" 1000 respHigh jsHigh (PyV.bool true) dataHigh
    (PyV.float ((3 : ℚ) / 20)) rfl rfl rfl rfl rfl rfl rfl rfl rfl rfl
    (by norm_num [pyGtQ, Config.default])

/-- C7: on a successfully validated quote whose `priceImpactPct` exceeds the
ceiling, `_compute_routes` logs a warning but still returns the full
response envelope (the very value decoded from the body, with every
top-level field such as `id`), not the failure indicator and not `data`. -/
theorem compute_routes_warns_but_returns_envelope
    (cfg : Config) (env : Env) (i o : String) (a : ℤ)
    (resp : Response) (js s d pi : PyV)
    (hnet : env.net (quoteRequest cfg i o a) = TransportResult.ok resp)
    (hst : resp.status_code = 200) (hb : resp.body = Except.ok js)
    (hs : getItem js "success" = Except.ok s) (hts : truthy s = true)
    (hd : getItem js "data" = Except.ok d)
    (hpi : getItem d "priceImpactPct" = Except.ok pi)
    (hgt : pyGtQ pi cfg.price_impact_max = Except.ok true) :
    (compute_routes cfg env i o a).val = js ∧
      LogEvent.warning ∈ (compute_routes cfg env i o a).logs := by
  rw [compute_routes_eq hnet hst hb hs hts hd hpi hgt]
  exact ⟨rfl, by simp⟩

/-- C7 witness: the high-impact quote is returned whole, with a warning. -/
theorem compute_routes_warns_but_returns_envelope_witness :
    (compute_routes Config.default envHigh "MintA" "MintB" 1000).val = jsHigh
      ∧ LogEvent.warning ∈
        (compute_routes Config.default envHigh "MintA" "MintB" 1000).logs :=
  compute_routes_warns_but_returns_envelope Config.default envHigh
    "MintA" "MintB" 1000 respHigh jsHigh (PyV.bool true) dataHigh
    (PyV.float ((3 : ℚ) / 20)) rfl rfl rfl rfl rfl rfl rfl
    (by norm_num [pyGtQ, Config.default])

/-- C3: whenever the quote request fails at the transport level, comes back
non-200, or its envelope has `success=false`, the three quote-consuming
operations all return the failure indicator `False`; the embedding of each
operation is a total function (its `try/except` is the final catch), so no
exception propagates to the caller. -/
theorem quote_failure_all_ops_return_false
    (cfg : Config) (env : Env) (i o : String) (a : ℤ)
    (h : quoteFails cfg env i o a = true) :
    (get_price cfg env i o a).val = PyV.bool false ∧
      (get_routes cfg env i o a).val = PyV.bool false ∧
      (get_pools_info cfg env i o a).val = PyV.bool false := by
  have hc := truthy_false_of_sentinel
    (compute_routes_sentinel_of_quoteFails h)
  have hr := get_routes_of_compute_falsy hc
  refine ⟨by rw [get_price_of_compute_falsy hc], by rw [hr], ?_⟩
  rw [get_pools_info_of_routes_falsy (by rw [hr]; rfl)]

/-- C3 witness: with the network down, all three operations yield `False`. -/
theorem quote_failure_all_ops_return_false_witness :
    (get_price Config.default envDown "MintA" "MintB" 7).val
        = PyV.bool false ∧
      (get_routes Config.default envDown "MintA" "MintB" 7).val
        = PyV.bool false ∧
      (get_pools_info Config.default envDown "MintA" "MintB" 7).val
        = PyV.bool false :=
  quote_failure_all_ops_return_false Config.default envDown
    "MintA" "MintB" 7 rfl

/-- C9: on every failure of the quote helper (transport failure, non-200
status, or unsuccessful envelope) the returned sentinel is `None` or
`False` — a value distinct from every float (in particular a legitimate
price `0.0`), every list (in particular an empty route plan), every dict,
string and int, so "route unavailable" is a different value from any
legitimate zero result. -/
theorem compute_routes_failure_sentinel_distinct
    (cfg : Config) (env : Env) (i o : String) (a : ℤ)
    (h : quoteFails cfg env i o a = true) :
    ((compute_routes cfg env i o a).val = PyV.none ∨
      (compute_routes cfg env i o a).val = PyV.bool false) ∧
      (∀ q, (compute_routes cfg env i o a).val ≠ PyV.float q) ∧
      (∀ l, (compute_routes cfg env i o a).val ≠ PyV.list l) ∧
      (∀ kvs, (compute_routes cfg env i o a).val ≠ PyV.dict kvs) ∧
      (∀ s, (compute_routes cfg env i o a).val ≠ PyV.str s) ∧
      (∀ n, (compute_routes cfg env i o a).val ≠ PyV.int n) := by
  have hsc := compute_routes_sentinel_of_quoteFails h
  refine ⟨hsc, ?_, ?_, ?_, ?_, ?_⟩ <;> intro x hx <;>
    rcases hsc with h1 | h1 <;> rw [h1] at hx <;> exact PyV.noConfusion hx

/-- C9 witness: with the network down the sentinel is not a float, list,
dict, string or int. -/
theorem compute_routes_failure_sentinel_distinct_witness :
    ((compute_routes Config.default envDown "MintA" "MintB" 7).val = PyV.none
        ∨ (compute_routes Config.default envDown "MintA" "MintB" 7).val
          = PyV.bool false) ∧
      (∀ q, (compute_routes Config.default envDown "MintA" "MintB" 7).val
        ≠ PyV.float q) ∧
      (∀ l, (compute_routes Config.default envDown "MintA" "MintB" 7).val
        ≠ PyV.list l) ∧
      (∀ kvs, (compute_routes Config.default envDown "MintA" "MintB" 7).val
        ≠ PyV.dict kvs) ∧
      (∀ s, (compute_routes Config.default envDown "MintA" "MintB" 7).val
        ≠ PyV.str s) ∧
      (∀ n, (compute_routes Config.default envDown "MintA" "MintB" 7).val
        ≠ PyV.int n) :=
  compute_routes_failure_sentinel_distinct Config.default envDown
    "MintA" "MintB" 7 rfl

/-- C4: on a validated quote whose `data` carries `inputAmount` and
`outputAmount` convertible by `float(...)` (non-zero denominator),
`get_price` returns exactly the quotient `inputAmount / outputAmount` of the
raw amounts — no decimal normalisation is applied. -/
theorem get_price_returns_quotient
    (cfg : Config) (env : Env) (i o : String) (a : ℤ)
    (resp : Response) (js s d pi iv ov : PyV) (b : Bool) (qi qo : ℚ)
    (hnet : env.net (quoteRequest cfg i o a) = TransportResult.ok resp)
    (hst : resp.status_code = 200) (hb : resp.body = Except.ok js)
    (hs : getItem js "success" = Except.ok s) (hts : truthy s = true)
    (hd : getItem js "data" = Except.ok d)
    (hpi : getItem d "priceImpactPct" = Except.ok pi)
    (hgt : pyGtQ pi cfg.price_impact_max = Except.ok b)
    (hiv : getItem d "inputAmount" = Except.ok iv)
    (hqi : pyFloat iv = Except.ok qi)
    (hov : getItem d "outputAmount" = Except.ok ov)
    (hqo : pyFloat ov = Except.ok qo)
    (hqo0 : qo ≠ 0) :
    (get_price cfg env i o a).val = PyV.float (qi / qo) := by
  unfold get_price
  simp only [compute_routes_eq hnet hst hb hs hts hd hpi hgt,
    truthy_of_getItem_ok hs, if_true, hd]
  obtain ⟨kvs, hdd, -⟩ := getItem_ok_dict hpi
  subst hdd
  simp only [hiv, hqi, hov, hqo, Bind.bind, Except.bind, pyDiv]
  rw [if_neg hqo0]

/-- C4 witness: `inputAmount=1_000_000_000`, `outputAmount=8_000_000` gives
price `125`. -/
theorem get_price_returns_quotient_witness :
    (get_price Config.default envGood "MintA" "MintB" 1000000000).val
      = PyV.float 125 := by
  have h := get_price_returns_quotient Config.default envGood
    "MintA" "MintB" 1000000000 respGood jsGood (PyV.bool true) dataGood
    (PyV.float ((1 : ℚ) / 100)) (PyV.str "1000000000") (PyV.str "8000000")
    false 1000000000 8000000
    rfl rfl rfl rfl rfl rfl rfl
    (by norm_num [pyGtQ, Config.default]) rfl rfl rfl rfl (by norm_num)
  have hq : (1000000000 : ℚ) / 8000000 = 125 := by norm_num
  rw [h, hq]

/-- C10: on a validated quote whose `data.outputAmount` converts to zero,
the division raises `ZeroDivisionError` inside `get_price`, the
`try/except` catches it, an error is logged, and the caller receives the
plain value `None` — not an exception and not an infinite float. -/
theorem get_price_zero_denominator_returns_none
    (cfg : Config) (env : Env) (i o : String) (a : ℤ)
    (resp : Response) (js s d pi iv ov : PyV) (b : Bool) (qi : ℚ)
    (hnet : env.net (quoteRequest cfg i o a) = TransportResult.ok resp)
    (hst : resp.status_code = 200) (hb : resp.body = Except.ok js)
    (hs : getItem js "success" = Except.ok s) (hts : truthy s = true)
    (hd : getItem js "data" = Except.ok d)
    (hpi : getItem d "priceImpactPct" = Except.ok pi)
    (hgt : pyGtQ pi cfg.price_impact_max = Except.ok b)
    (hiv : getItem d "inputAmount" = Except.ok iv)
    (hqi : pyFloat iv = Except.ok qi)
    (hov : getItem d "outputAmount" = Except.ok ov)
    (hqo : pyFloat ov = Except.ok 0) :
    (get_price cfg env i o a).val = PyV.none ∧
      LogEvent.error ∈ (get_price cfg env i o a).logs ∧
      ∀ q, (get_price cfg env i o a).val ≠ PyV.float q := by
  unfold get_price
  simp only [compute_routes_eq hnet hst hb hs hts hd hpi hgt,
    truthy_of_getItem_ok hs, if_true, hd]
  obtain ⟨kvs, hdd, -⟩ := getItem_ok_dict hpi
  subst hdd
  simp only [hiv, hqi, hov, hqo, Bind.bind, Except.bind, pyDiv]
  rw [if_pos trivial]
  exact ⟨rfl, by simp, fun q hq => PyV.noConfusion hq⟩

/-- C10 witness: a quote with `outputAmount="0"` makes `get_price` return
`None` with an error logged. -/
theorem get_price_zero_denominator_returns_none_witness :
    (get_price Config.default envZero "MintA" "MintB" 1000000000).val
        = PyV.none ∧
      LogEvent.error ∈
        (get_price Config.default envZero "MintA" "MintB" 1000000000).logs ∧
      ∀ q, (get_price Config.default envZero "MintA" "MintB" 1000000000).val
        ≠ PyV.float q :=
  get_price_zero_denominator_returns_none Config.default envZero
    "MintA" "MintB" 1000000000 respZero jsZero (PyV.bool true) dataZero
    (PyV.float ((1 : ℚ) / 100)) (PyV.str "1000000000") (PyV.str "0")
    false 1000000000
    rfl rfl rfl rfl rfl rfl rfl
    (by norm_num [pyGtQ, Config.default]) rfl rfl rfl rfl

/-- C6: on a validated quote whose non-empty route plan yields string pool
ids `ps` (one per hop, in route-plan order, duplicates preserved),
`get_pools_info` issues exactly one pools-info request after the quote
request, and its `ids` query parameter is the pool ids joined with `", "`. -/
theorem get_pools_info_ids_request
    (cfg : Config) (env : Env) (i o : String) (a : ℤ)
    (resp : Response) (js s d pi : PyV) (b : Bool)
    (hops : List PyV) (ps : List String)
    (hnet : env.net (quoteRequest cfg i o a) = TransportResult.ok resp)
    (hst : resp.status_code = 200) (hb : resp.body = Except.ok js)
    (hs : getItem js "success" = Except.ok s) (hts : truthy s = true)
    (hd : getItem js "data" = Except.ok d)
    (hpi : getItem d "priceImpactPct" = Except.ok pi)
    (hgt : pyGtQ pi cfg.price_impact_max = Except.ok b)
    (hrp : getItem d "routePlan" = Except.ok (PyV.list hops))
    (hcollect : collectPoolIds hops = Except.ok (ps.map PyV.str))
    (hne : hops ≠ []) :
    (get_pools_info cfg env i o a).reqs =
      [quoteRequest cfg i o a,
       poolsInfoRequest (String.intercalate ", " ps)] ∧
      (poolsInfoRequest (String.intercalate ", " ps)).params =
        [("ids", String.intercalate ", " ps)] := by
  unfold get_pools_info
  simp only [get_routes_eq hnet hst hb hs hts hd hpi hgt hrp]
  have ht : truthy (PyV.list hops) = true := by
    cases hops with
    | nil => exact absurd rfl hne
    | cons x xs => rfl
  simp only [ht, if_true, hcollect, Bind.bind, Except.bind, pyJoin_map_str]
  refine ⟨?_, rfl⟩
  cases hn2 : env.net (poolsInfoRequest (String.intercalate ", " ps)) with
  | exn m => simp [hn2]
  | ok resp2 =>
    rcases hrj : response_json resp2 with ⟨rj, lg⟩
    cases rj with
    | error e => simp [hn2, hrj]
    | ok js2 =>
      by_cases ht2 : truthy js2 = true
      · cases hgi : getItem js2 "data" with
        | ok v => simp [hn2, hrj, ht2, hgi]
        | error e => simp [hn2, hrj, ht2, hgi]
      · simp [hn2, hrj, ht2]

/-- C6 witness: a three-hop plan visiting pools `P1, P2, P1` (duplicate
preserved) produces the `ids` parameter `"P1, P2, P1"`. -/
theorem get_pools_info_ids_request_witness :
    (get_pools_info Config.default envGood "MintA" "MintB" 5).reqs =
      [quoteRequest Config.default "MintA" "MintB" 5,
       poolsInfoRequest (String.intercalate ", " ["P1", "P2", "P1"])] ∧
      (poolsInfoRequest (String.intercalate ", " ["P1", "P2", "P1"])).params
        = [("ids", String.intercalate ", " ["P1", "P2", "P1"])] :=
  get_pools_info_ids_request Config.default envGood "MintA" "MintB" 5
    respGood jsGood (PyV.bool true) dataGood (PyV.float ((1 : ℚ) / 100))
    false
    [PyV.dict [("poolId", PyV.str "P1")],
     PyV.dict [("poolId", PyV.str "P2")],
     PyV.dict [("poolId", PyV.str "P1")]]
    ["P1", "P2", "P1"]
    rfl rfl rfl rfl rfl rfl rfl
    (by norm_num [pyGtQ, Config.default]) rfl rfl
    (by simp)

/-! Shapes of the request traces, used for the timeout analysis. -/

theorem compute_routes_reqs (cfg : Config) (env : Env) (i o : String)
    (a : ℤ) :
    (compute_routes cfg env i o a).reqs = [quoteRequest cfg i o a] := by
  unfold compute_routes
  dsimp only
  repeat' split
  all_goals rfl

theorem get_price_reqs (cfg : Config) (env : Env) (i o : String) (a : ℤ) :
    (get_price cfg env i o a).reqs = (compute_routes cfg env i o a).reqs := by
  unfold get_price
  dsimp only
  repeat' split
  all_goals rfl

theorem get_routes_reqs (cfg : Config) (env : Env) (i o : String) (a : ℤ) :
    (get_routes cfg env i o a).reqs
      = (compute_routes cfg env i o a).reqs := by
  unfold get_routes
  dsimp only
  repeat' split
  all_goals rfl

theorem get_rpcs_reqs (env : Env) : (get_rpcs env).reqs = [rpcsRequest] := by
  unfold get_rpcs
  dsimp only
  repeat' split
  all_goals rfl

theorem get_pools_info_reqs_shape (cfg : Config) (env : Env) (i o : String)
    (a : ℤ) :
    (get_pools_info cfg env i o a).reqs
        = (get_routes cfg env i o a).reqs ∨
      ∃ ids_str, (get_pools_info cfg env i o a).reqs
        = (get_routes cfg env i o a).reqs ++ [poolsInfoRequest ids_str] := by
  unfold get_pools_info
  dsimp only
  repeat' split
  all_goals first
  | exact Or.inl rfl
  | exact Or.inr ⟨_, rfl⟩

/-- C8 counterexample: `get_rpcs` issues its request with no timeout at
all, so it is false that every outbound request of every public operation
carries the configured timeout. -/
theorem get_rpcs_request_lacks_timeout :
    ¬ (∀ r ∈ (get_rpcs envDown).reqs,
        r.timeout = some Config.default.timeout) := by
  intro h
  have hm := h rpcsRequest
    (by rw [get_rpcs_reqs]; exact List.mem_singleton.mpr rfl)
  simp [rpcsRequest] at hm

/-- C8 amended: only the quote request (and the transaction-build POST,
which carries `some cfg.timeout` by construction in `trxRequest`) uses the
configured timeout; the RPC-list request and the pools-info request are
issued with no timeout. -/
theorem request_timeout_per_endpoint (cfg : Config) (env : Env)
    (i o : String) (a : ℤ) :
    (∀ r ∈ (compute_routes cfg env i o a).reqs,
        r.timeout = some cfg.timeout) ∧
      (∀ r ∈ (get_price cfg env i o a).reqs,
        r.timeout = some cfg.timeout) ∧
      (∀ r ∈ (get_routes cfg env i o a).reqs,
        r.timeout = some cfg.timeout) ∧
      (∀ w fee sw, (trxRequest cfg w (env.ata w i) (env.ata w o) fee
        sw).timeout = some cfg.timeout) ∧
      (∀ r ∈ (get_rpcs env).reqs, r.timeout = Option.none) ∧
      (∀ r ∈ (get_pools_info cfg env i o a).reqs,
        r.url ≠ QUOTE_API_URL → r.timeout = Option.none) := by
  refine ⟨?_, ?_, ?_, ?_, ?_, ?_⟩
  · rw [compute_routes_reqs]
    intro r hr
    rw [List.mem_singleton] at hr
    subst hr
    rfl
  · rw [get_price_reqs, compute_routes_reqs]
    intro r hr
    rw [List.mem_singleton] at hr
    subst hr
    rfl
  · rw [get_routes_reqs, compute_routes_reqs]
    intro r hr
    rw [List.mem_singleton] at hr
    subst hr
    rfl
  · intro w fee sw
    rfl
  · rw [get_rpcs_reqs]
    intro r hr
    rw [List.mem_singleton] at hr
    subst hr
    rfl
  · intro r hr hq
    rcases get_pools_info_reqs_shape cfg env i o a with hsh | ⟨ids, hsh⟩
    · rw [hsh, get_routes_reqs, compute_routes_reqs] at hr
      rw [List.mem_singleton] at hr
      subst hr
      exact absurd rfl hq
    · rw [hsh, get_routes_reqs, compute_routes_reqs] at hr
      rcases List.mem_append.mp hr with hr1 | hr2
      · rw [List.mem_singleton] at hr1
        subst hr1
        exact absurd rfl hq
      · rw [List.mem_singleton] at hr2
        subst hr2
        rfl

/-- C8 amended witness: the quote request carries the default timeout while
the RPC-list request carries none. -/
theorem request_timeout_per_endpoint_witness :
    (quoteRequest Config.default "MintA" "MintB" 7).timeout
        = some Config.default.timeout ∧
      rpcsRequest.timeout = Option.none :=
  ⟨(request_timeout_per_endpoint Config.default envDown "MintA" "MintB" 7).1
      (quoteRequest Config.default "MintA" "MintB" 7)
      (by rw [compute_routes_reqs]; exact List.mem_singleton.mpr rfl),
   (request_timeout_per_endpoint Config.default envDown
        "MintA" "MintB" 7).2.2.2.2.1
      rpcsRequest (by rw [get_rpcs_reqs]; exact List.mem_singleton.mpr rfl)⟩

/-- C2: the auto-fee step of `generate_transaction` never applies the
`"15000"` fallback and never reaches the POST, because the call
`self._unit_price_micro_lamports("h")` raises `TypeError` (the method is
declared without `self`); here, on a quote with acceptable price impact and
a healthy network, `generate_transaction` returns `None` after the quote
request, issues no auto-fee request and no transaction-build POST, and logs
an error. -/
theorem generate_transaction_autofee_typeerror :
    (generate_transaction Config.default envGood "MintA" "MintB" "W"
        1000).val = PyV.none ∧
      (generate_transaction Config.default envGood "MintA" "MintB" "W"
        1000).reqs = [quoteRequest Config.default "MintA" "MintB" 1000] ∧
      LogEvent.error ∈ (generate_transaction Config.default envGood
        "MintA" "MintB" "W" 1000).logs := by
  have hnet : envGood.net (quoteRequest Config.default "MintA" "MintB" 1000)
      = TransportResult.ok respGood := rfl
  have hst : respGood.status_code = 200 := rfl
  have hb : respGood.body = Except.ok jsGood := rfl
  have hs : getItem jsGood "success" = Except.ok (PyV.bool true) := rfl
  have hts : truthy (PyV.bool true) = true := rfl
  have hd : getItem jsGood "data" = Except.ok dataGood := rfl
  have hpi : getItem dataGood "priceImpactPct"
      = Except.ok (PyV.float ((1 : ℚ) / 100)) := rfl
  have hgt : pyGtQ (PyV.float ((1 : ℚ) / 100))
      Config.default.price_impact_max = Except.ok false := by
    norm_num [pyGtQ, Config.default]
  have hc := compute_routes_eq hnet hst hb hs hts hd hpi hgt
  have hpk : (envGood.parseOk "W" && envGood.parseOk "MintA"
      && envGood.parseOk "MintB") = true := rfl
  unfold generate_transaction
  simp only [hpk, if_true, hc, truthy_of_getItem_ok hs, hd, hpi, hgt,
    Bind.bind, Except.bind, unit_price_micro_lamports_boundcall]
  simp

/-- C5 counterexample: a 200 response whose envelope is
`{"success": false}` (no `id` field) makes `_response_json` raise
`KeyError("id")` while building its log message, instead of returning the
failure indicator `False`. -/
theorem response_json_success_false_raises_keyerror :
    respNoId.status_code = 200 ∧ respSuccessFalse respNoId = true ∧
      response_json respNoId = (Except.error (PyErr.keyError "id"), []) :=
  ⟨rfl, rfl, rfl⟩

/-- C5 amended: `_response_json` returns the decoded envelope iff the
status is 200 and the envelope's `success` field is truthy; a non-200
status, and a `success=false` envelope that carries an `id` field, yield
the failure indicator `False`; a `success=false` envelope without `id`
raises `KeyError` out of the helper instead — and any exception escaping
the helper on the quote path is caught by the operations, which return
their failure value, never a propagated exception. -/
theorem response_json_amended (r : Response) :
    (r.status_code ≠ 200 →
      response_json r = (Except.ok (PyV.bool false), [LogEvent.error])) ∧
      (∀ js s, r.status_code = 200 → r.body = Except.ok js →
        getItem js "success" = Except.ok s → truthy s = true →
        response_json r = (Except.ok js, [])) ∧
      (∀ js s idv, r.status_code = 200 → r.body = Except.ok js →
        getItem js "success" = Except.ok s → truthy s = false →
        getItem js "id" = Except.ok idv →
        response_json r = (Except.ok (PyV.bool false), [LogEvent.error])) ∧
      (∀ js, (response_json r).1 = Except.ok js → js ≠ PyV.bool false →
        r.status_code = 200 ∧ r.body = Except.ok js ∧
          ∃ s, getItem js "success" = Except.ok s ∧ truthy s = true) ∧
      (∀ cfg env i o a e lg,
        env.net (quoteRequest cfg i o a) = TransportResult.ok r →
        response_json r = (Except.error e, lg) →
        (get_price cfg env i o a).val = PyV.bool false ∧
          (get_routes cfg env i o a).val = PyV.bool false ∧
          (get_pools_info cfg env i o a).val = PyV.bool false) := by
  refine ⟨response_json_non200, ?_, ?_, ?_, ?_⟩
  · intro js s hst hb hs hts
    exact response_json_ok hst hb hs hts
  · intro js s idv hst hb hs hts hid
    unfold response_json
    rw [hst, hb]
    simp [hs, hts, hid]
  · intro js hok hne
    by_cases hst : r.status_code = 200
    · unfold response_json at hok
      rw [if_neg (by simp [hst])] at hok
      cases hbd : r.body with
      | error e => simp [hbd] at hok
      | ok js2 =>
          simp only [hbd] at hok
          cases hsv : getItem js2 "success" with
          | error e => simp [hsv] at hok
          | ok s =>
              simp only [hsv] at hok
              by_cases hts : truthy s = true
              · rw [if_pos hts] at hok
                simp only at hok
                obtain rfl := Except.ok.inj hok
                exact ⟨hst, rfl, s, hsv, hts⟩
              · rw [if_neg hts] at hok
                cases hid : getItem js2 "id" with
                | error e => simp [hid] at hok
                | ok idv =>
                    simp only [hid] at hok
                    exact absurd (Except.ok.inj hok).symm hne
    · rw [response_json_non200 hst] at hok
      exact absurd (Except.ok.inj hok).symm hne
  · intro cfg env i o a e lg hnet hrj
    have hcf : truthy (compute_routes cfg env i o a).val = false := by
      rw [compute_routes_rj_error hnet hrj]
      rfl
    have hr := get_routes_of_compute_falsy hcf
    refine ⟨by rw [get_price_of_compute_falsy hcf], by rw [hr], ?_⟩
    rw [get_pools_info_of_routes_falsy (by rw [hr]; rfl)]

/-- C5 amended witness: a 404 response is rejected with the failure
indicator. -/
theorem response_json_amended_witness :
    response_json ⟨404, Except.ok PyV.none⟩
      = (Except.ok (PyV.bool false), [LogEvent.error]) :=
  (response_json_amended ⟨404, Except.ok PyV.none⟩).1 (by decide)

end RaydiumSwapModel
